import Mathlib

/-!
Shallow embedding of the Document_Extractor repository
(src/anthropic_fix.py and src/test.py) and verification of its
specification claims.

Modelling conventions:
* Python JSON values (the results of `json.loads` and the bodies handled by
  the HTTP layer) are the inductive type `Json`; Python `None` is `Json.null`.
* External collaborators (base64 decoding, PyMuPDF's `fitz.open`, page
  rendering, the HTTP transport, `json.loads`) are passed in as function
  parameters returning `Except String _`: `.error e` models a raised
  exception carrying message `e`.
* Python strings are Lean `String`s; the string-scanning operations the
  source uses (`in`, `str.split`, `str.strip`) are modelled on `List Char`
  by `py_in`, `pySplit`, `pyStrip`, faithful to CPython semantics
  (left-to-right non-overlapping occurrences).
-/

/-- JSON values as produced by Python's `json.loads`.  Python `None`
(JSON `null`) is `Json.null`.  Numbers are modelled as integers, which
covers every number appearing in this development; the model parser
`json_loads` rejects floats rather than approximating them. -/
inductive Json where
  | null : Json
  | bool : Bool → Json
  | num : Int → Json
  | str : String → Json
  | arr : List Json → Json
  | obj : List (String × Json) → Json
deriving Repr

/-- The backtick character, written via its code point. -/
def btick : Char := Char.ofNat 96

/-- The fence marker looked up by `"${three backticks}json" in response_text`
on line 118 of src/anthropic_fix.py. -/
def fence_json : List Char := [btick, btick, btick, 'j', 's', 'o', 'n']

/-- The bare fence marker (three backticks) of lines 119-121 of
src/anthropic_fix.py. -/
def fence3 : List Char := [btick, btick, btick]

/-- Index of the first occurrence of `sep` in `cs`, as Python's `str.find`
computes it (`none` when absent). -/
def firstOcc (sep : List Char) : List Char → Option Nat
  | [] => if sep.isEmpty then some 0 else none
  | c :: cs =>
    if sep.isPrefixOf (c :: cs) then some 0
    else (firstOcc sep cs).map (fun i => i + 1)

/-- Python's `sep in s` membership test for strings. -/
def py_in (sep cs : List Char) : Bool := (firstOcc sep cs).isSome

/-- Fuel-driven worker for `pySplit`. -/
def pySplitGo (sep : List Char) : Nat → List Char → List (List Char)
  | 0, cs => [cs]
  | Nat.succ fuel, cs =>
    match firstOcc sep cs with
    | none => [cs]
    | some i => cs.take i :: pySplitGo sep fuel (cs.drop (i + sep.length))

/-- Python's `s.split(sep)` for a non-empty separator: split at every
non-overlapping occurrence, scanning left to right. -/
def pySplit (sep cs : List Char) : List (List Char) :=
  pySplitGo sep (cs.length + 1) cs

/-- Characters stripped by Python's no-argument `str.strip()`. -/
def py_isspace (c : Char) : Bool :=
  c = ' ' || c = '\t' || c = '\n' || c = '\r' ||
  c = Char.ofNat 11 || c = Char.ofNat 12

/-- Python's `s.strip()`: remove whitespace from both ends. -/
def pyStrip (cs : List Char) : List Char :=
  ((cs.dropWhile py_isspace).reverse.dropWhile py_isspace).reverse

/-- Lines 117-123 of src/anthropic_fix.py: select the substring of the
response text to hand to `json.loads`.  Branch 1 fires when the text
contains a json-marked fence, branch 2 when it contains any fence,
branch 3 strips the whole text.  `getD` stands for Python's list
indexing, whose bounds are guaranteed by the guards. -/
def find_json_str (response_text : List Char) : List Char :=
  if py_in fence_json response_text then
    pyStrip ((pySplit fence3 ((pySplit fence_json response_text).getD 1 [])).getD 0 [])
  else if py_in fence3 response_text then
    pyStrip ((pySplit fence3 ((pySplit fence3 response_text).getD 1 [])).getD 0 [])
  else
    pyStrip response_text

/-- Whitespace skipped by the JSON grammar (and so by `json.loads`). -/
def json_skipWs (cs : List Char) : List Char :=
  cs.dropWhile (fun c => c = ' ' || c = '\t' || c = '\n' || c = '\r')

/-- Body of a JSON string literal, after the opening quote: returns the
decoded characters and the remainder after the closing quote.  Handles the
single-character escapes; `\uXXXX` escapes are not needed by any claim and
are rejected. -/
def json_parseStringAux : List Char → Option (List Char × List Char)
  | [] => none
  | c :: rest =>
    if c = '"' then some ([], rest)
    else if c = '\\' then
      match rest with
      | [] => none
      | e :: rest2 =>
        let decoded : Option Char :=
          if e = '"' then some '"'
          else if e = '\\' then some '\\'
          else if e = '/' then some '/'
          else if e = 'n' then some '\n'
          else if e = 't' then some '\t'
          else if e = 'r' then some '\r'
          else if e = 'b' then some (Char.ofNat 8)
          else if e = 'f' then some (Char.ofNat 12)
          else none
        match decoded with
        | none => none
        | some d => (json_parseStringAux rest2).map (fun p => (d :: p.1, p.2))
    else (json_parseStringAux rest).map (fun p => (c :: p.1, p.2))

/-- Numeric value of a list of decimal digits. -/
def json_digitsVal (ds : List Char) : Nat :=
  ds.foldl (fun n c => n * 10 + (c.toNat - 48)) 0

/-- The opening and closing curly braces, via their code points. -/
def lcurly : Char := Char.ofNat 123

/-- Closing curly brace. -/
def rcurly : Char := Char.ofNat 125

mutual

/-- Model of the value parser inside Python's `json.loads`, on the JSON
subset this program exercises (null, booleans, integers, strings, arrays,
objects).  Floats are rejected rather than approximated.  The fuel
argument only bounds recursion depth; `json_loads` supplies enough for any
input. -/
def json_parseValue : Nat → List Char → Except String (Json × List Char)
  | 0, _ => .error "Maximum recursion depth exceeded"
  | Nat.succ fuel, cs =>
    match json_skipWs cs with
    | [] => .error "Expecting value"
    | c :: rest =>
      if c = 'n' then
        match rest with
        | 'u' :: 'l' :: 'l' :: r => .ok (Json.null, r)
        | _ => .error "Expecting value"
      else if c = 't' then
        match rest with
        | 'r' :: 'u' :: 'e' :: r => .ok (Json.bool true, r)
        | _ => .error "Expecting value"
      else if c = 'f' then
        match rest with
        | 'a' :: 'l' :: 's' :: 'e' :: r => .ok (Json.bool false, r)
        | _ => .error "Expecting value"
      else if c = '"' then
        match json_parseStringAux rest with
        | some (s, r) => .ok (Json.str (String.mk s), r)
        | none => .error "Unterminated string"
      else if c = '[' then
        match json_skipWs rest with
        | ']' :: r => .ok (Json.arr [], r)
        | other => json_parseArrayItems fuel other []
      else if c = lcurly then
        match json_skipWs rest with
        | d :: r =>
          if d = rcurly then .ok (Json.obj [], r)
          else json_parseObjectItems fuel (d :: r) []
        | [] => .error "Expecting property name"
      else if c = '-' || c.isDigit then
        let neg := c = '-'
        let body := if neg then rest else c :: rest
        let ds := body.takeWhile Char.isDigit
        let rest2 := body.dropWhile Char.isDigit
        if ds.isEmpty then .error "Expecting value"
        else
          match rest2 with
          | '.' :: _ => .error "float literals are outside the modelled JSON subset"
          | 'e' :: _ => .error "float literals are outside the modelled JSON subset"
          | 'E' :: _ => .error "float literals are outside the modelled JSON subset"
          | _ =>
            let n : Int := Int.ofNat (json_digitsVal ds)
            .ok (Json.num (if neg then -n else n), rest2)
      else .error "Expecting value"

/-- Items of a JSON array after the opening bracket (first item pending). -/
def json_parseArrayItems : Nat → List Char → List Json → Except String (Json × List Char)
  | 0, _, _ => .error "Maximum recursion depth exceeded"
  | Nat.succ fuel, cs, acc =>
    match json_parseValue fuel cs with
    | .error e => .error e
    | .ok (v, r) =>
      match json_skipWs r with
      | ',' :: r2 => json_parseArrayItems fuel r2 (acc ++ [v])
      | ']' :: r2 => .ok (Json.arr (acc ++ [v]), r2)
      | _ => .error "Expecting comma delimiter"

/-- Members of a JSON object after the opening brace (first key pending). -/
def json_parseObjectItems : Nat → List Char → List (String × Json) → Except String (Json × List Char)
  | 0, _, _ => .error "Maximum recursion depth exceeded"
  | Nat.succ fuel, cs, acc =>
    match json_skipWs cs with
    | '"' :: rest =>
      match json_parseStringAux rest with
      | none => .error "Unterminated string"
      | some (k, r) =>
        match json_skipWs r with
        | ':' :: r2 =>
          match json_parseValue fuel r2 with
          | .error e => .error e
          | .ok (v, r3) =>
            match json_skipWs r3 with
            | ',' :: r4 => json_parseObjectItems fuel r4 (acc ++ [(String.mk k, v)])
            | d :: r4 =>
              if d = rcurly then .ok (Json.obj (acc ++ [(String.mk k, v)]), r4)
              else .error "Expecting comma delimiter"
            | [] => .error "Expecting comma delimiter"
        | _ => .error "Expecting colon delimiter"
    | _ => .error "Expecting property name enclosed in double quotes"

end

/-- Model of Python's `json.loads` on the JSON subset this program
exercises.  Returns `.error` exactly where `json.loads` raises
(`json.JSONDecodeError` or `RecursionError`). -/
def json_loads (s : String) : Except String Json :=
  match json_parseValue (s.data.length + 1) s.data with
  | .error e => .error e
  | .ok (v, rest) =>
    if (json_skipWs rest).isEmpty then .ok v else .error "Extra data"

/-- Python's `key in j` for the values `json.loads`/`response.json()` can
produce: key lookup on dicts, element equality on lists, substring test on
strings; a TypeError on the remaining (non-iterable) values. -/
def py_contains (j : Json) (key : String) : Except String Bool :=
  match j with
  | Json.obj fields => .ok (fields.any (fun kv => kv.1 == key))
  | Json.arr xs =>
    .ok (xs.any (fun x => match x with | Json.str s => s == key | _ => false))
  | Json.str s => .ok (py_in key.data s.data)
  | _ => .error "TypeError: argument is not iterable"

/-- Python's `j[key]` subscription with a string key: dict lookup (KeyError
when absent), TypeError on every other value. -/
def py_getitem_str (j : Json) (key : String) : Except String Json :=
  match j with
  | Json.obj fields =>
    match fields.find? (fun kv => kv.1 == key) with
    | some kv => .ok kv.2
    | none => .error ("KeyError: " ++ key)
  | Json.arr _ => .error "TypeError: list indices must be integers or slices, not str"
  | _ => .error "TypeError: object is not subscriptable"

/-- Python's `j[i]` subscription with a non-negative integer index: list
and string indexing (IndexError out of range), KeyError on dicts,
TypeError otherwise. -/
def py_getitem_nat (j : Json) (i : Nat) : Except String Json :=
  match j with
  | Json.arr xs =>
    match xs.get? i with
    | some x => .ok x
    | none => .error "IndexError: list index out of range"
  | Json.str s =>
    match s.data.get? i with
    | some c => .ok (Json.str (String.mk [c]))
    | none => .error "IndexError: string index out of range"
  | Json.obj _ => .error ("KeyError: " ++ toString i)
  | _ => .error "TypeError: object is not subscriptable"

/-- Python's `len(j)`: defined for dicts, lists and strings, a TypeError
otherwise. -/
def py_len (j : Json) : Except String Nat :=
  match j with
  | Json.obj fields => .ok fields.length
  | Json.arr xs => .ok xs.length
  | Json.str s => .ok s.data.length
  | _ => .error "TypeError: object has no len"

/-- Bytes produced by base64-decoding the uploaded document. -/
abbrev Bytes := List Nat

/-- Pages of an opened PDF document.  Rendering is delegated to an
external function parameter, so no claim inspects the page representation;
a numeric identifier suffices. -/
abbrev Page := Nat

/-- One content block of the user turn built on lines 85-100 of
src/anthropic_fix.py: either an image dict
`(type image, source (type base64, media_type, data))` or a text dict
`(type text, text ...)`. -/
inductive ContentBlock where
  | image (source_type : String) (media_type : String) (data : String) : ContentBlock
  | text (t : String) : ContentBlock
deriving Repr, DecidableEq

/-- One element of the `messages` list of the request payload. -/
structure Message where
  role : String
  content : List ContentBlock
deriving Repr, DecidableEq

/-- The JSON body posted to the API, built on lines 25-31 of
src/anthropic_fix.py. -/
structure Payload where
  model : String
  system : String
  messages : List Message
  max_tokens : Nat
  temperature : Nat
deriving Repr, DecidableEq

/-- An HTTP response as the httpx client surfaces it to `create_message`:
a status code, the raw body text, and the body parsed as JSON (the value
`response.json()` returns). -/
structure HttpResponse where
  status_code : Nat
  text : String
  json : Json
deriving Repr

/-- Lines 25-31 of src/anthropic_fix.py: the request payload assembled by
`AnthropicDirectClient.create_message` from its arguments. -/
def message_payload (model : String) (system : String) (messages : List Message)
    (max_tokens : Nat) (temperature : Nat) : Payload :=
  ⟨model, system, messages, max_tokens, temperature⟩

/-- Lines 21-39 of src/anthropic_fix.py: `AnthropicDirectClient.create_message`.
The HTTP transport is the parameter `post` (an `.error` models a raised
transport exception, which the method does not catch).  On a received
response the method raises unless the status is 200, interpolating the
status code and the raw body into the message; on 200 it returns the
parsed JSON body unchanged. -/
def create_message (post : Payload → Except String HttpResponse)
    (system : String) (messages : List Message)
    (model : String) (max_tokens : Nat) (temperature : Nat) : Except String Json :=
  match post (message_payload model system messages max_tokens temperature) with
  | .error e => .error e
  | .ok response =>
    if response.status_code ≠ 200 then
      .error ("API request failed with status " ++ toString response.status_code
        ++ ": " ++ response.text)
    else
      .ok response.json

/-- Lines 41-73 of src/anthropic_fix.py: `pdf_to_images`.  `b64decode`
models `base64.b64decode` (whose failures the function does NOT wrap,
since the decode happens before the `try`), `fitz_open` models
`fitz.open(stream, filetype="pdf")`, and `render` models the body of the
loop (pixmap at 2x zoom, PIL, PNG, base64) for one page.  The loop runs
over `range(min(len(doc), max_pages))` and appends one rendered image per
index, in order. -/
def pdf_to_images (b64decode : String → Except String Bytes)
    (fitz_open : Bytes → Except String (List Page)) (render : Page → String)
    (pdf_data : String) (max_pages : Nat) : Except String (List String) :=
  match b64decode pdf_data with
  | .error e => .error e
  | .ok pdf_stream =>
    match fitz_open pdf_stream with
    | .error e => .error ("Error converting PDF to images: " ++ e)
    | .ok doc =>
      .ok ((List.range (min doc.length max_pages)).map
        (fun page_num => render (doc.getD page_num 0)))

/-- The static trailing directive appended on lines 97-100 of
src/anthropic_fix.py. -/
def trailing_directive : String :=
  "Extract the purchase order information as specified in your instructions. This is a PDF document converted to images."

/-- Lines 85-100 of src/anthropic_fix.py: starting from an empty list,
append one image block per page image (type base64, media type image/png),
then append the single static text block. -/
def build_content (pdf_images : List String) : List ContentBlock :=
  let content := pdf_images.foldl
    (fun acc img_base64 => acc ++ [ContentBlock.image "base64" "image/png" img_base64]) []
  content ++ [ContentBlock.text trailing_directive]

/-- The full request payload `extract_data_with_direct_client` sends for a
given system prompt and page-image list: the content blocks of
`build_content` in a single user turn, with the model identifier, token
budget and temperature defaults of `create_message`. -/
def build_request (prompt : String) (pdf_images : List String) : Payload :=
  message_payload "claude-3-7-sonnet-20250219" prompt
    [⟨"user", build_content pdf_images⟩] 4000 0

/-- The message of the exception raised for a non-200 response, lines
36-37 of src/anthropic_fix.py. -/
def api_failure_message (status_code : Nat) (text : String) : String :=
  "API request failed with status " ++ toString status_code ++ ": " ++ text

/-- Lines 76-131 of src/anthropic_fix.py, the body inside the outer `try`:
everything up to either a normal `return` (modelled `.ok (value, error)`)
or a raised exception (modelled `.error message`). -/
def extract_body (b64decode : String → Except String Bytes)
    (fitz_open : Bytes → Except String (List Page)) (render : Page → String)
    (post : Payload → Except String HttpResponse)
    (jsonLoads : String → Except String Json)
    (pdf_base64 : String) (prompt : String) : Except String (Json × Option String) :=
  match pdf_to_images b64decode fitz_open render pdf_base64 10 with
  | .error e => .error e
  | .ok pdf_images =>
    let content := build_content pdf_images
    match create_message post prompt [⟨"user", content⟩]
        "claude-3-7-sonnet-20250219" 4000 0 with
    | .error e => .error e
    | .ok response =>
      match py_contains response "content" with
      | .error e => .error e
      | .ok false => .ok (Json.null, some "No content in response")
      | .ok true =>
        match py_getitem_str response "content" with
        | .error e => .error e
        | .ok content_val =>
          match py_len content_val with
          | .error e => .error e
          | .ok n =>
            if n > 0 then
              match py_getitem_str response "content" with
              | .error e => .error e
              | .ok content_val2 =>
                match py_getitem_nat content_val2 0 with
                | .error e => .error e
                | .ok first =>
                  match py_getitem_str first "text" with
                  | .error e => .error e
                  | .ok text_val =>
                    match text_val with
                    | Json.str response_text =>
                      let json_str := String.mk (find_json_str response_text.data)
                      match jsonLoads json_str with
                      | .error e => .error e
                      | .ok extracted_data => .ok (extracted_data, none)
                    | _ => .error "TypeError: response text is not a string"
            else .ok (Json.null, some "No content in response")

/-- Lines 76-131 of src/anthropic_fix.py: `extract_data_with_direct_client`.
The outer `try`/`except` catches every exception of the body and converts
it to a `(None, message)` pair; `api_key` flows only into HTTP headers,
which are outside the payload model. -/
def extract_data_with_direct_client (b64decode : String → Except String Bytes)
    (fitz_open : Bytes → Except String (List Page)) (render : Page → String)
    (post : Payload → Except String HttpResponse)
    (jsonLoads : String → Except String Json)
    (pdf_base64 : String) (api_key : String) (prompt : String) : Json × Option String :=
  match extract_body b64decode fitz_open render post jsonLoads pdf_base64 prompt with
  | .ok r => r
  | .error e => (Json.null, some ("Error with direct Anthropic API call: " ++ e))

/-- The base template string of `create_extraction_prompt`, lines 63-81 of
src/test.py, transcribed byte-for-byte from the Python triple-quoted
literal. -/
def po_template : String :=
  "\n    You are an expert document extraction system specializing in Purchase Order extraction.\n    Extract the following information from the provided purchase order document in a structured JSON format:\n\n    1. Purchase order information: PO number, date, expiry date (if available), total amount\n    2. Customer information: Customer name, address, email ID, contact number\n    3. Vendor information: Vendor name, address, contact, email\n    4. Table data: Products/items with their details (convert tables to JSON format)\n\n    Rules:\n    - If any information is not present in the document, use null for that field\n    - Be precise with field names and values\n    - Maintain the structure of tables when converting to JSON\n    - For numerical values, preserve the original format (including currency symbols if present)\n    - Intelligently handle different PO layouts and formatting anomalies\n\n    Provide ONLY the JSON output with no additional explanation.\n    Format the JSON using appropriate indentation for readability.\n    "

/-- The addendum appended for advanced mode, lines 84-91 of src/test.py. -/
def po_advanced_addendum : String :=
  "\n    Additionally, extract any other fields that might be present in the document, such as:\n    - Shipping information\n    - Payment terms\n    - Discounts\n    - Tax information\n    - Notes or additional comments\n    "

/-- Lines 62-93 of src/test.py: `create_extraction_prompt`.  The
`pdf_data` argument is received but never read; the template is extended
exactly when `mode == "advanced"`. -/
def create_extraction_prompt (pdf_data : String) (mode : String) : String :=
  let template := po_template
  let template := if mode == "advanced" then template ++ po_advanced_addendum else template
  template

/-- Lines 112-118 of src/test.py: `extract_po_data` forwards the PDF, the
key, and the mode-selected prompt to `extract_data_with_direct_client`. -/
def extract_po_data (b64decode : String → Except String Bytes)
    (fitz_open : Bytes → Except String (List Page)) (render : Page → String)
    (post : Payload → Except String HttpResponse)
    (jsonLoads : String → Except String Json)
    (pdf_base64 : String) (api_key : String) (mode : String) : Json × Option String :=
  extract_data_with_direct_client b64decode fitz_open render post jsonLoads
    pdf_base64 api_key (create_extraction_prompt pdf_base64 mode)

/-- Python truthiness of the `error` component as tested by
`if error:` on line 154 of src/test.py: `None` and the empty string are
falsy, every other string is truthy. -/
def error_truthy : Option String → Bool
  | none => false
  | some s => s ≠ ""

/-- Taking the length of the left list from a concatenation returns it. -/
theorem take_append_len {α : Type} (a b : List α) : (a ++ b).take a.length = a := by
  induction a with
  | nil => simp
  | cons c t ih => simp [ih]

/-- Dropping the length of the left list from a concatenation leaves the
right list. -/
theorem drop_append_len {α : Type} (a b : List α) : (a ++ b).drop a.length = b := by
  induction a with
  | nil => simp
  | cons c t ih => simp [ih]

/-- A list is a Boolean prefix of itself followed by anything. -/
theorem isPrefixOf_append_self (a b : List Char) : a.isPrefixOf (a ++ b) = true := by
  simp

/-- If a concatenation is a Boolean prefix of a list, so is its left part. -/
theorem isPrefixOf_append_left (a b l : List Char)
    (h : (a ++ b).isPrefixOf l = true) : a.isPrefixOf l = true := by
  simp at h ⊢
  exact (List.prefix_append a b).trans h

/-- A Boolean prefix never exceeds the list in length. -/
theorem isPrefixOf_length_le (a l : List Char) (h : a.isPrefixOf l = true) :
    a.length ≤ l.length := by
  simp at h
  exact h.length_le

/-- Where `firstOcc` reports an occurrence, the separator is a prefix of
the remaining suffix. -/
theorem firstOcc_isPrefixOf_drop (sep cs : List Char) (i : Nat)
    (h : firstOcc sep cs = some i) : sep.isPrefixOf (cs.drop i) = true := by
  induction cs generalizing i with
  | nil =>
    unfold firstOcc at h
    split at h
    · cases h
      next he =>
        cases sep with
        | nil => simp
        | cons c t => simp [List.isEmpty] at he
    · cases h
  | cons c cs' ih =>
    unfold firstOcc at h
    split at h
    next hp =>
      cases h
      exact hp
    next hp =>
      rw [Option.map_eq_some'] at h
      obtain ⟨j, hj, rfl⟩ := h
      simpa using ih j hj

/-- The index reported by `firstOcc` is at most the list length. -/
theorem firstOcc_some_le (sep cs : List Char) (i : Nat)
    (h : firstOcc sep cs = some i) : i ≤ cs.length := by
  induction cs generalizing i with
  | nil =>
    unfold firstOcc at h
    split at h
    · cases h
      exact Nat.le_refl 0
    · cases h
  | cons c cs' ih =>
    unfold firstOcc at h
    split at h
    next hp =>
      cases h
      exact Nat.zero_le _
    next hp =>
      rw [Option.map_eq_some'] at h
      obtain ⟨j, hj, rfl⟩ := h
      have := ih j hj
      simp
      omega

/-- An occurrence reported by `firstOcc` fits entirely inside the list. -/
theorem firstOcc_some_bound (sep cs : List Char) (i : Nat)
    (h : firstOcc sep cs = some i) : i + sep.length ≤ cs.length := by
  have hpref := firstOcc_isPrefixOf_drop sep cs i h
  have hlen := isPrefixOf_length_le sep (cs.drop i) hpref
  have hi := firstOcc_some_le sep cs i h
  rw [List.length_drop] at hlen
  omega

/-- With enough fuel, `pySplitGo` is insensitive to the exact amount. -/
theorem pySplitGo_fuel (sep : List Char) (hsep : sep ≠ []) :
    ∀ fuel₁ fuel₂ cs, cs.length < fuel₁ → cs.length < fuel₂ →
      pySplitGo sep fuel₁ cs = pySplitGo sep fuel₂ cs := by
  intro fuel₁
  induction fuel₁ with
  | zero => intro fuel₂ cs h1 _; omega
  | succ f ih =>
    intro fuel₂ cs h1 h2
    cases fuel₂ with
    | zero => omega
    | succ f₂ =>
      unfold pySplitGo
      cases hocc : firstOcc sep cs with
      | none => rfl
      | some i =>
        have hbound := firstOcc_some_bound sep cs i hocc
        have hslen : 0 < sep.length := by
          cases sep with
          | nil => exact absurd rfl hsep
          | cons c t => simp
        have hcs : 0 < cs.length := by omega
        have hdrop : (cs.drop (i + sep.length)).length < cs.length := by
          rw [List.length_drop]
          omega
        dsimp only
        rw [ih f₂ (cs.drop (i + sep.length)) (by omega) (by omega)]

/-- Unfolding `pySplit` at a reported occurrence. -/
theorem pySplit_cons (sep cs : List Char) (hsep : sep ≠ []) (i : Nat)
    (h : firstOcc sep cs = some i) :
    pySplit sep cs = cs.take i :: pySplit sep (cs.drop (i + sep.length)) := by
  unfold pySplit
  conv_lhs => rw [pySplitGo]
  rw [h]
  have hbound := firstOcc_some_bound sep cs i h
  have hslen : 0 < sep.length := by
    cases sep with
    | nil => exact absurd rfl hsep
    | cons c t => simp
  have hdrop : (cs.drop (i + sep.length)).length < cs.length := by
    rw [List.length_drop]
    omega
  dsimp only
  rw [pySplitGo_fuel sep hsep cs.length ((cs.drop (i + sep.length)).length + 1)
    (cs.drop (i + sep.length)) (by omega) (by omega)]

/-- `pySplit` with no occurrence of the separator returns the whole list. -/
theorem pySplit_single (sep cs : List Char) (h : firstOcc sep cs = none) :
    pySplit sep cs = [cs] := by
  unfold pySplit pySplitGo
  rw [h]

/-- When no character of `u` equals the head of the separator, the first
occurrence of the separator in `u ++ sep ++ v` is exactly at the end of
`u`. -/
theorem firstOcc_clean_append (c0 : Char) (tl u v : List Char)
    (hu : ∀ c ∈ u, c ≠ c0) :
    firstOcc (c0 :: tl) (u ++ (c0 :: tl) ++ v) = some u.length := by
  induction u with
  | nil =>
    unfold firstOcc
    have : (c0 :: tl).isPrefixOf (c0 :: tl ++ v) = true := by
      simpa using isPrefixOf_append_self (c0 :: tl) v
    simp only [List.nil_append, List.cons_append] at this ⊢
    rw [if_pos this]
    rfl
  | cons c u' ih =>
    have hc : c ≠ c0 := hu c (by simp)
    have hnp : ¬ (c0 :: tl).isPrefixOf (c :: (u' ++ (c0 :: tl) ++ v)) = true := by
      simp only [List.isPrefixOf]
      intro hcontra
      rw [Bool.and_eq_true] at hcontra
      have : c0 = c := by simpa using hcontra.1
      exact hc this.symm
    have hu' : ∀ x ∈ u', x ≠ c0 := fun x hx => hu x (by simp [hx])
    rw [show (c :: u') ++ (c0 :: tl) ++ v = c :: (u' ++ (c0 :: tl) ++ v) by simp]
    unfold firstOcc
    rw [if_neg (by simpa using hnp)]
    rw [ih hu']
    simp

/-- When no character of `u` equals the head of the separator, the
separator does not occur in `u` at all. -/
theorem firstOcc_clean_none (c0 : Char) (tl u : List Char)
    (hu : ∀ c ∈ u, c ≠ c0) : firstOcc (c0 :: tl) u = none := by
  induction u with
  | nil => rfl
  | cons c u' ih =>
    have hc : c ≠ c0 := hu c (by simp)
    have hnp : ¬ (c0 :: tl).isPrefixOf (c :: u') = true := by
      simp only [List.isPrefixOf]
      intro hcontra
      rw [Bool.and_eq_true] at hcontra
      have : c0 = c := by simpa using hcontra.1
      exact hc this.symm
    unfold firstOcc
    rw [if_neg (by simpa using hnp)]
    rw [ih (fun x hx => hu x (by simp [hx]))]
    rfl

/-- `firstOcc` reports an occurrence exactly when the separator is a
prefix of some suffix. -/
theorem firstOcc_isSome_iff (sep cs : List Char) :
    (firstOcc sep cs).isSome = true ↔ ∃ i, sep.isPrefixOf (cs.drop i) = true := by
  constructor
  · intro h
    cases hocc : firstOcc sep cs with
    | none => rw [hocc] at h; cases h
    | some i => exact ⟨i, firstOcc_isPrefixOf_drop sep cs i hocc⟩
  · intro ⟨i, hi⟩
    induction cs generalizing i with
    | nil =>
      rw [List.drop_nil] at hi
      have : sep = [] := by
        cases sep with
        | nil => rfl
        | cons c t => simp at hi
      subst this
      simp [firstOcc, List.isEmpty]
    | cons c cs' ih =>
      unfold firstOcc
      split
      · rfl
      next hnp =>
        cases i with
        | zero =>
          rw [List.drop_zero] at hi
          exact absurd hi hnp
        | succ j =>
          rw [List.drop_succ_cons] at hi
          have := ih j hi
          cases hocc : firstOcc sep cs' with
          | none => rw [hocc] at this; cases this
          | some k => simp [hocc]

/-- A false `py_in` test means `firstOcc` reports nothing. -/
theorem py_in_false_iff (sep cs : List Char) :
    py_in sep cs = false ↔ firstOcc sep cs = none := by
  unfold py_in
  cases firstOcc sep cs <;> simp

/-- The separator occurs in any list that displays it between two
arbitrary parts. -/
theorem py_in_append_self (sep a b : List Char) :
    py_in sep (a ++ sep ++ b) = true := by
  unfold py_in
  rw [firstOcc_isSome_iff]
  refine ⟨a.length, ?_⟩
  rw [List.append_assoc, drop_append_len]
  exact isPrefixOf_append_self sep b

/-- Where the json-marked fence occurs, the bare fence occurs too. -/
theorem py_in_fence3_of_fence_json (cs : List Char)
    (h : py_in fence_json cs = true) : py_in fence3 cs = true := by
  unfold py_in at h ⊢
  rw [firstOcc_isSome_iff] at h ⊢
  obtain ⟨i, hi⟩ := h
  refine ⟨i, ?_⟩
  have : fence_json = fence3 ++ ['j', 's', 'o', 'n'] := rfl
  rw [this] at hi
  exact isPrefixOf_append_left fence3 ['j', 's', 'o', 'n'] (cs.drop i) hi

/-- Spelling of the json fence as head and tail, for the clean-occurrence
lemmas. -/
theorem fence_json_cons : fence_json = btick :: [btick, btick, 'j', 's', 'o', 'n'] := rfl

/-- Spelling of the bare fence as head and tail. -/
theorem fence3_cons : fence3 = btick :: [btick, btick] := rfl

/-- Branch 1 of the response parser: a text of the shape
`pre ++ fence_json ++ mid ++ fence3 ++ post` where `pre` and `mid` are
backtick-free and the json fence occurs only at the shown place yields the
stripped `mid`. -/
theorem find_json_str_json_branch (pre mid post : List Char)
    (hpre : ∀ c ∈ pre, c ≠ btick) (hmid : ∀ c ∈ mid, c ≠ btick)
    (hrest : py_in fence_json (mid ++ fence3 ++ post) = false) :
    find_json_str (pre ++ fence_json ++ (mid ++ fence3 ++ post)) = pyStrip mid := by
  set rest := mid ++ fence3 ++ post with hrestdef
  have hocc : firstOcc fence_json (pre ++ fence_json ++ rest) = some pre.length := by
    rw [fence_json_cons, List.append_assoc]
    rw [show pre ++ ((btick :: [btick, btick, 'j', 's', 'o', 'n']) ++ rest)
        = pre ++ (btick :: [btick, btick, 'j', 's', 'o', 'n']) ++ rest by simp]
    exact firstOcc_clean_append btick [btick, btick, 'j', 's', 'o', 'n'] pre rest hpre
  have hin : py_in fence_json (pre ++ fence_json ++ rest) = true := by
    unfold py_in
    rw [hocc]
    rfl
  unfold find_json_str
  rw [if_pos hin]
  have hsep_ne : fence_json ≠ [] := by rw [fence_json_cons]; simp
  have hsplit1 : pySplit fence_json (pre ++ fence_json ++ rest)
      = pre :: pySplit fence_json rest := by
    rw [pySplit_cons fence_json (pre ++ fence_json ++ rest) hsep_ne pre.length hocc]
    congr 1
    · rw [List.append_assoc]
      exact take_append_len pre (fence_json ++ rest)
    · congr 1
      rw [List.append_assoc]
      rw [show pre.length + fence_json.length = (pre ++ fence_json).length by simp]
      rw [← List.append_assoc]
      exact drop_append_len (pre ++ fence_json) rest
  have hnone : firstOcc fence_json rest = none := (py_in_false_iff _ _).mp hrest
  rw [hsplit1, pySplit_single fence_json rest hnone]
  have hget : ([pre, rest] : List (List Char)).getD 1 [] = rest := rfl
  rw [show (pre :: [rest]).getD 1 [] = rest from rfl]
  have hocc3 : firstOcc fence3 rest = some mid.length := by
    rw [hrestdef, fence3_cons, List.append_assoc]
    rw [show mid ++ ((btick :: [btick, btick]) ++ post)
        = mid ++ (btick :: [btick, btick]) ++ post by simp]
    exact firstOcc_clean_append btick [btick, btick] mid post hmid
  have hsep3_ne : fence3 ≠ [] := by rw [fence3_cons]; simp
  rw [pySplit_cons fence3 rest hsep3_ne mid.length hocc3]
  have htake : rest.take mid.length = mid := by
    rw [hrestdef, List.append_assoc]
    exact take_append_len mid (fence3 ++ post)
  rw [htake]
  rfl

/-- Branch 2 of the response parser: a text of the shape
`pre ++ fence3 ++ mid ++ fence3 ++ post` with backtick-free `pre` and
`mid` and no json-marked fence anywhere yields the stripped `mid`. -/
theorem find_json_str_bare_branch (pre mid post : List Char)
    (hpre : ∀ c ∈ pre, c ≠ btick) (hmid : ∀ c ∈ mid, c ≠ btick)
    (hnojson : py_in fence_json (pre ++ fence3 ++ (mid ++ fence3 ++ post)) = false) :
    find_json_str (pre ++ fence3 ++ (mid ++ fence3 ++ post)) = pyStrip mid := by
  set rest := mid ++ fence3 ++ post with hrestdef
  have hocc : firstOcc fence3 (pre ++ fence3 ++ rest) = some pre.length := by
    rw [fence3_cons, List.append_assoc]
    rw [show pre ++ ((btick :: [btick, btick]) ++ rest)
        = pre ++ (btick :: [btick, btick]) ++ rest by simp]
    exact firstOcc_clean_append btick [btick, btick] pre rest hpre
  have hin3 : py_in fence3 (pre ++ fence3 ++ rest) = true := by
    unfold py_in
    rw [hocc]
    rfl
  unfold find_json_str
  rw [if_neg (by rw [hnojson]; simp), if_pos hin3]
  have hsep3_ne : fence3 ≠ [] := by rw [fence3_cons]; simp
  have hsplit1 : pySplit fence3 (pre ++ fence3 ++ rest)
      = pre :: pySplit fence3 rest := by
    rw [pySplit_cons fence3 (pre ++ fence3 ++ rest) hsep3_ne pre.length hocc]
    congr 1
    · rw [List.append_assoc]
      exact take_append_len pre (fence3 ++ rest)
    · congr 1
      rw [List.append_assoc]
      rw [show pre.length + fence3.length = (pre ++ fence3).length by simp]
      rw [← List.append_assoc]
      exact drop_append_len (pre ++ fence3) rest
  have hocc3 : firstOcc fence3 rest = some mid.length := by
    rw [hrestdef, fence3_cons, List.append_assoc]
    rw [show mid ++ ((btick :: [btick, btick]) ++ post)
        = mid ++ (btick :: [btick, btick]) ++ post by simp]
    exact firstOcc_clean_append btick [btick, btick] mid post hmid
  have hsplit2 : pySplit fence3 rest
      = mid :: pySplit fence3 (rest.drop (mid.length + fence3.length)) := by
    rw [pySplit_cons fence3 rest hsep3_ne mid.length hocc3]
    congr 1
    rw [hrestdef, List.append_assoc]
    exact take_append_len mid (fence3 ++ post)
  rw [hsplit1, hsplit2]
  rw [show (pre :: mid :: pySplit fence3 (rest.drop (mid.length + fence3.length))).getD 1 []
      = mid from rfl]
  have hmidnone : firstOcc fence3 mid = none := by
    rw [fence3_cons]
    exact firstOcc_clean_none btick [btick, btick] mid hmid
  rw [pySplit_single fence3 mid hmidnone]
  rfl

/-- Branch 3 of the response parser: a text with no fence at all is
stripped whole. -/
theorem find_json_str_no_fence (text : List Char)
    (h : py_in fence3 text = false) : find_json_str text = pyStrip text := by
  have hnj : py_in fence_json text = false := by
    cases hx : py_in fence_json text with
    | false => rfl
    | true => rw [py_in_fence3_of_fence_json text hx] at h; cases h
  unfold find_json_str
  rw [if_neg (by rw [hnj]; simp), if_neg (by rw [h]; simp)]

/-- Appending two strings concatenates their character data. -/
theorem string_data_append (a b : String) : (a ++ b).data = a.data ++ b.data := by
  cases a
  cases b
  rfl

/-- Mapping the range of a bounded index over positional lookups equals
mapping over the prefix of the list. -/
theorem range_map_getD_take (f : Page → String) (l : List Page) :
    ∀ k, k ≤ l.length →
      (List.range k).map (fun i => f (l.getD i 0)) = (l.take k).map f := by
  intro k
  induction k with
  | zero => intro _; simp
  | succ k ih =>
    intro h
    have hk : k < l.length := h
    have hget : l[k]? = some l[k] := List.getElem?_eq_getElem hk
    rw [List.range_succ, List.map_append, ih (Nat.le_of_lt hk)]
    have hmap : List.take (k + 1) (List.map f l)
        = List.take k (List.map f l) ++ [f l[k]] := by
      rw [List.take_succ, List.getElem?_map, hget]
      rfl
    simp only [List.map_take]
    rw [hmap]
    simp [List.getD_eq_getElem?_getD, hget]

/-- C3: for a PDF that decodes and opens to more pages than the maximum,
`pdf_to_images` returns exactly `max_pages` images, one per page, in the
document's original page order; pages beyond the maximum are never
rendered. -/
theorem pdf_to_images_caps_at_max (b64decode : String → Except String Bytes)
    (fitz_open : Bytes → Except String (List Page)) (render : Page → String)
    (pdf_data : String) (bs : Bytes) (doc : List Page) (max_pages : Nat)
    (hb : b64decode pdf_data = .ok bs) (hf : fitz_open bs = .ok doc)
    (hgt : max_pages < doc.length) :
    pdf_to_images b64decode fitz_open render pdf_data max_pages
      = .ok ((doc.take max_pages).map render)
    ∧ ((doc.take max_pages).map render).length = max_pages := by
  constructor
  · unfold pdf_to_images
    rw [hb]
    dsimp only
    rw [hf]
    dsimp only
    have hmin : min doc.length max_pages = max_pages := by omega
    rw [hmin, range_map_getD_take render doc max_pages (Nat.le_of_lt hgt)]
  · simp
    omega

/-- Witness for C3 at a 3-page document with a 2-page maximum. -/
theorem pdf_to_images_caps_at_max_witness :
    pdf_to_images (fun _ => .ok []) (fun _ => .ok [0, 1, 2]) (fun p => toString p)
        "pdf" 2
      = .ok ((([0, 1, 2] : List Page).take 2).map (fun p => toString p))
    ∧ ((([0, 1, 2] : List Page).take 2).map (fun p => toString p)).length = 2 :=
  pdf_to_images_caps_at_max (fun _ => .ok []) (fun _ => .ok [0, 1, 2])
    (fun p => toString p) "pdf" [] [0, 1, 2] 2 rfl rfl (by decide)

/-- C4 counterexample: a zero-page document that the PDF library opens
successfully makes `pdf_to_images` return the normal result `ok []`
(the loop over `range(min(0, 10))` runs zero times), not an error.  In
PyMuPDF, `fitz.open` accepts a structurally valid PDF whose page tree is
empty; only the failure to open raises. -/
theorem pdf_to_images_zero_page_normal_result :
    pdf_to_images (fun _ => Except.ok []) (fun _ => Except.ok ([] : List Page))
      (fun _ => "") "zero-page-pdf-base64" 10 = Except.ok [] := rfl

/-- C4 amended: when the PDF library rejects the decoded bytes,
`pdf_to_images` fails with the wrapped error; when the library opens a
zero-page document, `pdf_to_images` returns the empty list normally. -/
theorem pdf_to_images_error_cases (b64decode : String → Except String Bytes)
    (fitz_open : Bytes → Except String (List Page)) (render : Page → String)
    (pdf_data : String) (bs : Bytes) (max_pages : Nat) :
    (∀ e, b64decode pdf_data = .ok bs → fitz_open bs = .error e →
      pdf_to_images b64decode fitz_open render pdf_data max_pages
        = .error ("Error converting PDF to images: " ++ e))
  ∧ (b64decode pdf_data = .ok bs → fitz_open bs = .ok [] →
      pdf_to_images b64decode fitz_open render pdf_data max_pages = .ok []) := by
  constructor
  · intro e hb hf
    unfold pdf_to_images
    rw [hb]
    dsimp only
    rw [hf]
  · intro hb hf
    unfold pdf_to_images
    rw [hb]
    dsimp only
    rw [hf]
    simp

/-- Witness for the amended C4 at concrete opener behaviours. -/
theorem pdf_to_images_error_cases_witness :
    pdf_to_images (fun _ => .ok []) (fun _ => .error "cannot open broken document")
      (fun _ => "") "broken" 10
      = .error ("Error converting PDF to images: " ++ "cannot open broken document") :=
  (pdf_to_images_error_cases (fun _ => .ok [])
    (fun _ => .error "cannot open broken document") (fun _ => "") "broken" [] 10).1
    "cannot open broken document" rfl rfl

/-- C5: with a received HTTP response, `create_message` fails exactly when
the status is not the success status 200, with an error carrying the
status code and the raw body verbatim; on 200 it returns the parsed JSON
body unmodified; for a 401 the surfaced error string contains "401". -/
theorem create_message_status_behaviour (resp : HttpResponse)
    (system model : String) (messages : List Message)
    (max_tokens temperature : Nat) :
    (resp.status_code ≠ 200 →
      create_message (fun _ => .ok resp) system messages model max_tokens temperature
        = .error (api_failure_message resp.status_code resp.text))
  ∧ (resp.status_code = 200 →
      create_message (fun _ => .ok resp) system messages model max_tokens temperature
        = .ok resp.json)
  ∧ (resp.status_code = 401 →
      ∃ err, create_message (fun _ => .ok resp) system messages model max_tokens temperature
          = .error err ∧ py_in "401".data err.data = true) := by
  refine ⟨?_, ?_, ?_⟩
  · intro h
    unfold create_message
    dsimp only
    rw [if_pos h]
    rfl
  · intro h
    unfold create_message
    dsimp only
    rw [if_neg (by rw [h]; exact fun hc => hc rfl)]
  · intro h
    refine ⟨api_failure_message resp.status_code resp.text, ?_, ?_⟩
    · unfold create_message
      dsimp only
      rw [if_pos (by rw [h]; exact fun hc => by cases hc)]
      rfl
    · unfold api_failure_message
      rw [h]
      rw [show toString (401 : Nat) = "401" from rfl]
      rw [string_data_append, string_data_append, string_data_append]
      rw [List.append_assoc, List.append_assoc]
      rw [show "401".data ++ (": ".data ++ resp.text.data)
          = "401".data ++ (": ".data ++ resp.text.data) from rfl]
      rw [← List.append_assoc "401".data]
      exact py_in_append_self "401".data "API request failed with status ".data
        (": ".data ++ resp.text.data)

/-- Witness for C5 at a concrete 401 response. -/
theorem create_message_status_behaviour_witness :
    create_message (fun _ => .ok ⟨401, "unauthorized", Json.null⟩) "sys" [] "m" 4000 0
      = .error (api_failure_message 401 "unauthorized") :=
  (create_message_status_behaviour ⟨401, "unauthorized", Json.null⟩ "sys" "m" [] 4000 0).1
    (by decide)

set_option maxRecDepth 8192 in
/-- C6: the advanced-mode system instruction extends the basic one: the
basic string is a proper prefix, and the appended addendum names the
additional optional categories (shipping, payment terms, discounts, tax,
notes). -/
theorem create_extraction_prompt_advanced_superset (p : String) :
    create_extraction_prompt p "advanced"
      = create_extraction_prompt p "basic" ++ po_advanced_addendum
  ∧ (create_extraction_prompt p "basic").data.isPrefixOf
      (create_extraction_prompt p "advanced").data = true
  ∧ create_extraction_prompt p "advanced" ≠ create_extraction_prompt p "basic"
  ∧ py_in "Shipping information".data po_advanced_addendum.data = true
  ∧ py_in "Payment terms".data po_advanced_addendum.data = true
  ∧ py_in "Discounts".data po_advanced_addendum.data = true
  ∧ py_in "Tax information".data po_advanced_addendum.data = true
  ∧ py_in "Notes or additional comments".data po_advanced_addendum.data = true := by
  refine ⟨rfl, ?_, ?_, by decide, by decide, by decide, by decide, by decide⟩
  · show po_template.data.isPrefixOf (po_template ++ po_advanced_addendum).data = true
    rw [string_data_append]
    exact isPrefixOf_append_self po_template.data po_advanced_addendum.data
  · show po_template ++ po_advanced_addendum ≠ po_template
    intro h
    have h2 := congrArg (fun s => s.data.length) h
    simp only [string_data_append, List.length_append] at h2
    have h3 : po_advanced_addendum.data.length = 0 := by omega
    exact absurd h3 (by decide)

/-- Witness for C6 at a concrete pdf argument. -/
theorem create_extraction_prompt_advanced_superset_witness :
    create_extraction_prompt "some-pdf" "advanced"
      = create_extraction_prompt "some-pdf" "basic" ++ po_advanced_addendum :=
  (create_extraction_prompt_advanced_superset "some-pdf").1

/-- Folding appends of single blocks over a list equals the accumulated
list followed by the mapped list. -/
theorem foldl_append_map (f : String → ContentBlock) (l : List String) :
    ∀ acc : List ContentBlock,
      l.foldl (fun a x => a ++ [f x]) acc = acc ++ l.map f := by
  induction l with
  | nil => intro acc; simp
  | cons x t ih => intro acc; simp [ih]

/-- C7: the request content is one base64 PNG image block per page image,
in the same order, followed by exactly one trailing text block whose text
is the fixed directive (`build_content` does not even receive the
extraction mode, so the directive cannot depend on it). -/
theorem build_content_structure (pdf_images : List String) :
    build_content pdf_images
      = pdf_images.map (fun img => ContentBlock.image "base64" "image/png" img)
        ++ [ContentBlock.text trailing_directive]
  ∧ (build_content pdf_images).length = pdf_images.length + 1
  ∧ (∀ i, i < pdf_images.length →
      (build_content pdf_images).get? i
        = (pdf_images.get? i).map (fun img => ContentBlock.image "base64" "image/png" img))
  ∧ (build_content pdf_images).getLast? = some (ContentBlock.text trailing_directive) := by
  have hmain : build_content pdf_images
      = pdf_images.map (fun img => ContentBlock.image "base64" "image/png" img)
        ++ [ContentBlock.text trailing_directive] := by
    unfold build_content
    rw [foldl_append_map (fun img => ContentBlock.image "base64" "image/png" img)
      pdf_images []]
    simp
  refine ⟨hmain, ?_, ?_, ?_⟩
  · rw [hmain]
    simp
  · intro i hi
    rw [hmain]
    rw [List.get?_append (by simpa using hi)]
    simp [List.get?_map]
  · rw [hmain]
    exact List.getLast?_concat _

/-- Witness for C7 at a two-image list, exercising the indexed conjunct. -/
theorem build_content_structure_witness :
    (build_content ["imgA", "imgB"]).get? 1
      = (["imgA", "imgB"].get? 1).map
          (fun img => ContentBlock.image "base64" "image/png" img) :=
  (build_content_structure ["imgA", "imgB"]).2.2.1 1 (by decide)

/-- C8: the request builder is a pure function of the system instruction
and the image list; two calls with identical inputs produce structurally
identical payloads (the model identifier, token budget and temperature are
the fixed defaults, and nothing varying enters the construction). -/
theorem build_request_deterministic (prompt₁ prompt₂ : String)
    (images₁ images₂ : List String)
    (hp : prompt₁ = prompt₂) (hi : images₁ = images₂) :
    build_request prompt₁ images₁ = build_request prompt₂ images₂ := by
  subst hp
  subst hi
  rfl

/-- Witness for C8 at a concrete prompt and image list. -/
theorem build_request_deterministic_witness :
    build_request "system prompt" ["img1"] = build_request "system prompt" ["img1"] :=
  build_request_deterministic "system prompt" "system prompt" ["img1"] ["img1"] rfl rfl

/-- C9: the system instruction depends only on whether the mode string is
exactly "advanced": the pdf argument never influences it, and every other
mode value (not just "basic") yields the basic instruction. -/
theorem create_extraction_prompt_mode_only :
    (∀ p₁ p₂ m, create_extraction_prompt p₁ m = create_extraction_prompt p₂ m)
  ∧ (∀ p m, m ≠ "advanced" →
      create_extraction_prompt p m = create_extraction_prompt p "basic") := by
  constructor
  · intro p₁ p₂ m
    rfl
  · intro p m h
    have hbeq : (m == "advanced") = false := beq_eq_false_iff_ne.mpr h
    unfold create_extraction_prompt
    rw [hbeq]
    rfl

/-- Witness for C9: an unrelated mode string behaves like "basic", and the
pdf argument is irrelevant. -/
theorem create_extraction_prompt_mode_only_witness :
    create_extraction_prompt "pdfA" "fancy" = create_extraction_prompt "pdfB" "basic" := by
  have h := create_extraction_prompt_mode_only
  exact (h.1 "pdfA" "pdfB" "fancy").trans (h.2 "pdfB" "fancy" (by decide))

set_option maxRecDepth 8192 in
/-- C1: the response parser selects its substring by the three ordered
branches of lines 118-123 (json-marked fence, then any fence, then the
whole trimmed text), and on the response text consisting of a json fence
around the object with key "a" and value 1 the whole extraction returns
that object with a null error. -/
theorem response_parser_branches :
    (extract_data_with_direct_client (fun _ => .ok []) (fun _ => .ok [0])
        (fun _ => "IMG")
        (fun _ => .ok ⟨200, "raw",
          Json.obj [("content", Json.arr [Json.obj [("text",
            Json.str "```json\n\x7b\"a\":1\x7d\n```")]])]⟩)
        json_loads "PDF64" "KEY" "PROMPT"
      = (Json.obj [("a", Json.num 1)], none))
  ∧ (∀ pre mid post, (∀ c ∈ pre, c ≠ btick) → (∀ c ∈ mid, c ≠ btick) →
      py_in fence_json (mid ++ fence3 ++ post) = false →
      find_json_str (pre ++ fence_json ++ (mid ++ fence3 ++ post)) = pyStrip mid)
  ∧ (∀ pre mid post, (∀ c ∈ pre, c ≠ btick) → (∀ c ∈ mid, c ≠ btick) →
      py_in fence_json (pre ++ fence3 ++ (mid ++ fence3 ++ post)) = false →
      find_json_str (pre ++ fence3 ++ (mid ++ fence3 ++ post)) = pyStrip mid)
  ∧ (∀ text, py_in fence3 text = false → find_json_str text = pyStrip text) := by
  exact ⟨rfl, find_json_str_json_branch, find_json_str_bare_branch, find_json_str_no_fence⟩

set_option maxRecDepth 8192 in
/-- Witness for C1: the json-fence branch at a fenced object between
backtick-free surroundings. -/
theorem response_parser_branches_witness :
    find_json_str ("Answer: ".data ++ fence_json
        ++ ("\n\x7b\"ok\":true\x7d\n".data ++ fence3 ++ " done".data))
      = pyStrip "\n\x7b\"ok\":true\x7d\n".data :=
  response_parser_branches.2.1 "Answer: ".data "\n\x7b\"ok\":true\x7d\n".data
    " done".data (by decide) (by decide) (by decide)

/-- Every normal return of the body is either a success pair with a null
error or the no-content pair. -/
theorem extract_body_ok_shape (b64decode : String → Except String Bytes)
    (fitz_open : Bytes → Except String (List Page)) (render : Page → String)
    (post : Payload → Except String HttpResponse)
    (jsonLoads : String → Except String Json)
    (pdf_base64 : String) (prompt : String) (r : Json × Option String)
    (h : extract_body b64decode fitz_open render post jsonLoads pdf_base64 prompt
      = .ok r) :
    r.2 = none ∨ r = (Json.null, some "No content in response") := by
  unfold extract_body at h
  dsimp only at h
  iterate 14 (all_goals (try split at h))
  all_goals (first
    | (exact Except.noConfusion h)
    | (injection h with h2; subst h2; simp))

/-- C2: for every behaviour of the external collaborators and every
input, the extraction operation returns a pair that is either a parsed
value with a null error or Python None with an error string; being a total
function of the model, it cannot raise past its boundary, and no returned
pair carries both a value and an error. -/
theorem extract_always_returns_pair (b64decode : String → Except String Bytes)
    (fitz_open : Bytes → Except String (List Page)) (render : Page → String)
    (post : Payload → Except String HttpResponse)
    (jsonLoads : String → Except String Json)
    (pdf_base64 : String) (api_key : String) (prompt : String) :
    (∃ v, extract_data_with_direct_client b64decode fitz_open render post jsonLoads
        pdf_base64 api_key prompt = (v, none))
  ∨ (∃ s, extract_data_with_direct_client b64decode fitz_open render post jsonLoads
        pdf_base64 api_key prompt = (Json.null, some s)) := by
  unfold extract_data_with_direct_client
  cases h : extract_body b64decode fitz_open render post jsonLoads pdf_base64 prompt with
  | error e =>
    right
    exact ⟨"Error with direct Anthropic API call: " ++ e, rfl⟩
  | ok r =>
    rcases extract_body_ok_shape b64decode fitz_open render post jsonLoads
      pdf_base64 prompt r h with h2 | h2
    · left
      obtain ⟨v, e⟩ := r
      exact ⟨v, by simp_all⟩
    · right
      exact ⟨"No content in response", by simp_all⟩

/-- C10: when the fenced payload is the JSON literal `null`, the
extraction returns Python None with a null error, and the caller's
`if error:` test takes the success path. -/
theorem extract_null_payload_silent_success :
    (extract_data_with_direct_client (fun _ => .ok []) (fun _ => .ok [0])
        (fun _ => "IMG")
        (fun _ => .ok ⟨200, "raw",
          Json.obj [("content", Json.arr [Json.obj [("text",
            Json.str "```json\nnull\n```")]])]⟩)
        json_loads "PDF64null" "KEY" "PROMPT"
      = (Json.null, none))
  ∧ error_truthy (extract_data_with_direct_client (fun _ => .ok []) (fun _ => .ok [0])
        (fun _ => "IMG")
        (fun _ => .ok ⟨200, "raw",
          Json.obj [("content", Json.arr [Json.obj [("text",
            Json.str "```json\nnull\n```")]])]⟩)
        json_loads "PDF64null" "KEY" "PROMPT").2 = false :=
  ⟨rfl, rfl⟩
